import Mathlib

/-!
Verification development for `pywa/types/account.py`: the `AccountUpdate`
webhook record, its nested `TypedDict` sub-records, the two string
enumerations with their `_missing_` fallbacks, and the extraction
classmethod `AccountUpdate.from_update`.

The Python payload is a JSON-shaped value; we embed it as `JVal`.
Dictionary/list subscription, `dict.get`, `datetime.datetime.fromtimestamp`
and the dataclass-generated keyword `__init__` are embedded as explicit
`Except`-valued operations so that every lookup/type failure of the Python
code is a value of `PyError`.
-/

/-- A JSON-shaped Python value as delivered to `from_update`. -/
inductive JVal where
  | str : String → JVal
  | int : Int → JVal
  | bool : Bool → JVal
  | null : JVal
  | arr : List JVal → JVal
  | obj : List (String × JVal) → JVal

/-- The Python exceptions that the embedded operations can raise.
`typeErrorUnexpectedKwarg` is the `TypeError` raised by a generated
dataclass `__init__` on an undeclared keyword argument;
`typeErrorMissingArg` that for a missing required argument;
`typeErrorSubscript` the `TypeError` for subscripting a value that does
not support the given subscript; `typeErrorTimestamp` the `TypeError`
from `datetime.datetime.fromtimestamp` on a non-numeric argument;
`attributeError` carries the missing attribute's name;
`frozenInstanceError` is `dataclasses.FrozenInstanceError`. -/
inductive PyError where
  | keyError : String → PyError
  | indexError : PyError
  | typeErrorSubscript : PyError
  | typeErrorTimestamp : PyError
  | typeErrorUnexpectedKwarg : String → PyError
  | typeErrorMissingArg : String → PyError
  | attributeError : String → PyError
  | frozenInstanceError : PyError

/-- Python `d[k]` for a string key: on a dict, the bound value or
`KeyError`; on any other value a `TypeError` (lists/strings reject string
subscripts, scalars and `None` are not subscriptable). -/
def JVal.getItem : JVal → String → Except PyError JVal
  | .obj kvs, k =>
    match kvs.lookup k with
    | some v => Except.ok v
    | none => Except.error (PyError.keyError k)
  | _, _ => Except.error PyError.typeErrorSubscript

/-- Python `x[i]` for a non-negative integer index: on a list, the element
or `IndexError`; on a string, the one-character substring or `IndexError`;
on a dict, a `KeyError` (our embedded dict keys are all strings, so an
integer key is never present); otherwise `TypeError`. -/
def JVal.getIdx : JVal → Nat → Except PyError JVal
  | .arr xs, i =>
    match xs.get? i with
    | some v => Except.ok v
    | none => Except.error PyError.indexError
  | .str s, i =>
    match s.toList.get? i with
    | some c => Except.ok (JVal.str (String.mk [c]))
    | none => Except.error PyError.indexError
  | .obj _, i => Except.error (PyError.keyError (toString i))
  | _, _ => Except.error PyError.typeErrorSubscript

/-- Python `d.get(k)` (single-argument form): on a dict, the bound value or
`None`; on any other value an `AttributeError` (no `get` attribute). -/
def JVal.getDefault : JVal → String → Except PyError JVal
  | .obj kvs, k => Except.ok ((kvs.lookup k).getD JVal.null)
  | _, _ => Except.error (PyError.attributeError "get")

/-- A naive (timezone-unaware) `datetime.datetime`, represented by its
local wall-clock time in seconds.  The host's local timezone is modelled
as a fixed offset `off` from UTC, threaded as a parameter. -/
structure PyDatetime where
  localSeconds : Int
deriving DecidableEq

/-- `datetime.datetime.fromtimestamp(t)` under local-timezone offset
`off`: accepts an integer (or a bool, which Python treats as an integer)
epoch-seconds value and yields the naive local datetime; any other
argument raises `TypeError`. -/
def pyFromtimestamp (off : Int) : JVal → Except PyError PyDatetime
  | JVal.int t => Except.ok ⟨t + off⟩
  | JVal.bool b => Except.ok ⟨(if b then (1 : Int) else 0) + off⟩
  | _ => Except.error PyError.typeErrorTimestamp

/-- `datetime.timestamp()` of a naive datetime under local-timezone
offset `off`: converts the local wall-clock seconds back to epoch
seconds. -/
def PyDatetime.toTimestamp (off : Int) (d : PyDatetime) : Int :=
  d.localSeconds - off

/-- The opaque `WhatsApp` client handle passed to `from_update`; the
component stores it and never calls any method on it. -/
inductive Client where
  | mk : Client

/-- A Python runtime value as stored in an `AccountUpdate` field: either a
raw payload value, a converted `datetime`, or the client handle. -/
inductive PyObj where
  | val : JVal → PyObj
  | dt : PyDatetime → PyObj
  | clientVal : Client → PyObj

/-- The `AccountUpdate` dataclass (source lines 34–69).  Python dataclass
fields are dynamically typed — the generated `__init__` performs no type
checks — so every field holds a `PyObj`.  The fields `_client` and `raw`
are modelled from the spec: they belong to the base class `BaseUpdate`
(not part of the given source), which per the spec attaches the
originating client handle and the raw payload to every update record. -/
structure AccountUpdate where
  _client : PyObj
  raw : PyObj
  id : PyObj
  timestamp : PyObj
  phone_number : PyObj
  event : PyObj
  waba_ban_state : PyObj
  waba_ban_date : PyObj
  violation_type : PyObj
  lock_info_expiration : PyObj
  restriction_type : PyObj
  restriction_info_expiration : PyObj
  business_verification_status : PyObj
  partner_client_certification_info : PyObj
  waba_info : PyObj
  auth_international_rate_eligibility : PyObj

/-- The declared field names of the `AccountUpdate` dataclass, in
declaration order: the two `BaseUpdate` fields (modelled from the spec)
followed by the fields declared at source lines 56–69. -/
def accountUpdateFieldNames : List String :=
  ["_client", "raw", "id", "timestamp", "phone_number", "event",
   "waba_ban_state", "waba_ban_date", "violation_type",
   "lock_info_expiration", "restriction_type",
   "restriction_info_expiration", "business_verification_status",
   "partner_client_certification_info", "waba_info",
   "auth_international_rate_eligibility"]

/-- The fields of `AccountUpdate` that have no default value and are
therefore required keyword arguments of the generated `__init__`. -/
def accountUpdateRequiredFields : List String :=
  ["_client", "raw", "id", "timestamp", "phone_number", "event",
   "waba_info"]

/-- The keyword `__init__` generated by
`@dataclasses.dataclass(slots=True, frozen=True, kw_only=True)` (source
line 34): a keyword argument whose name is not a declared field raises
`TypeError` (unexpected keyword argument); a required field without a
default that is not supplied raises `TypeError` (missing argument);
otherwise the record is constructed, absent optional fields taking their
declared default `None`. -/
def accountUpdateInit (kwargs : List (String × PyObj)) :
    Except PyError AccountUpdate :=
  match kwargs.find? (fun kv => !(accountUpdateFieldNames.contains kv.1)) with
  | some kv => Except.error (PyError.typeErrorUnexpectedKwarg kv.1)
  | none =>
    match accountUpdateRequiredFields.find?
        (fun k => (kwargs.lookup k).isNone) with
    | some k => Except.error (PyError.typeErrorMissingArg k)
    | none =>
      Except.ok
        { _client := (kwargs.lookup "_client").getD (PyObj.val JVal.null)
          raw := (kwargs.lookup "raw").getD (PyObj.val JVal.null)
          id := (kwargs.lookup "id").getD (PyObj.val JVal.null)
          timestamp := (kwargs.lookup "timestamp").getD (PyObj.val JVal.null)
          phone_number :=
            (kwargs.lookup "phone_number").getD (PyObj.val JVal.null)
          event := (kwargs.lookup "event").getD (PyObj.val JVal.null)
          waba_ban_state :=
            (kwargs.lookup "waba_ban_state").getD (PyObj.val JVal.null)
          waba_ban_date :=
            (kwargs.lookup "waba_ban_date").getD (PyObj.val JVal.null)
          violation_type :=
            (kwargs.lookup "violation_type").getD (PyObj.val JVal.null)
          lock_info_expiration :=
            (kwargs.lookup "lock_info_expiration").getD (PyObj.val JVal.null)
          restriction_type :=
            (kwargs.lookup "restriction_type").getD (PyObj.val JVal.null)
          restriction_info_expiration :=
            (kwargs.lookup "restriction_info_expiration").getD
              (PyObj.val JVal.null)
          business_verification_status :=
            (kwargs.lookup "business_verification_status").getD
              (PyObj.val JVal.null)
          partner_client_certification_info :=
            (kwargs.lookup "partner_client_certification_info").getD
              (PyObj.val JVal.null)
          waba_info := (kwargs.lookup "waba_info").getD (PyObj.val JVal.null)
          auth_international_rate_eligibility :=
            (kwargs.lookup "auth_international_rate_eligibility").getD
              (PyObj.val JVal.null) }

/-- The values read out of the payload by `from_update` before the
dataclass constructor is invoked, in Python's left-to-right evaluation
order of the call's keyword arguments. -/
structure ExtractedFields where
  idv : JVal
  ts : PyDatetime
  phone : JVal
  ev : JVal
  wbs : JVal
  wbd : JVal
  vt : JVal
  lockExp : PyDatetime
  rt : JVal
  restrExp : PyDatetime
  bvs : JVal
  cbi : JVal
  st : JVal
  rr : JVal
  wabaId : JVal
  obi : JVal
  solId : JVal
  spbi : JVal
  iom : JVal
  aireStart : JVal
  aireExc : JVal

/-- The payload accesses performed by `from_update` (source lines 73–117),
in source order.  Python evaluates every keyword-argument expression of
the constructor call before the call itself, so all of these lookups run
first; identical repeated lookups (e.g. `value["ban_info"]` for both ban
fields) are performed once, which is observationally equal because the
lookups are pure. -/
def extractFields (off : Int) (update : JVal) :
    Except PyError ExtractedFields := do
  let data ← JVal.getItem update "entry" >>= (JVal.getIdx · 0)
  let value ← (JVal.getItem data "changes" >>= (JVal.getIdx · 0)) >>=
    (JVal.getItem · "value")
  let idv ← JVal.getItem data "id"
  let timev ← JVal.getItem data "time"
  let ts ← pyFromtimestamp off timev
  let phone ← JVal.getItem value "phone_number"
  let ev ← JVal.getItem value "event"
  let banInfo ← JVal.getItem value "ban_info"
  let wbs ← JVal.getItem banInfo "waba_ban_state"
  let wbd ← JVal.getItem banInfo "waba_ban_date"
  let violInfo ← JVal.getItem value "violation_info"
  let vt ← JVal.getItem violInfo "violation_type"
  let lockInfo ← JVal.getItem value "lock_info"
  let lockExpRaw ← JVal.getItem lockInfo "expiration"
  let lockExp ← pyFromtimestamp off lockExpRaw
  let restrInfo ← JVal.getItem value "restriction_info"
  let rt ← JVal.getItem restrInfo "restriction_type"
  let restrExpRaw ← JVal.getItem restrInfo "expiration"
  let restrExp ← pyFromtimestamp off restrExpRaw
  let bvs ← JVal.getDefault value "business_verification_status"
  let pcci ← JVal.getItem value "partner_client_certification_info"
  let cbi ← JVal.getItem pcci "client_business_id"
  let st ← JVal.getItem pcci "status"
  let rr ← JVal.getItem pcci "rejection_reasons"
  let wi ← JVal.getItem value "waba_info"
  let wabaId ← JVal.getItem wi "waba_id"
  let obi ← JVal.getItem wi "owner_business_id"
  let solId ← JVal.getItem wi "solution_id"
  let spbi ← JVal.getItem wi "solution_partner_business_ids"
  let iom ← JVal.getItem wi "is_obo_to_shared_migrated"
  let aire ← JVal.getItem value "auth_international_rate_eligibility"
  let aireStart ← JVal.getItem aire "start_time"
  let aireExc ← JVal.getItem aire "exception_countries"
  pure ⟨idv, ts, phone, ev, wbs, wbd, vt, lockExp, rt, restrExp, bvs,
    cbi, st, rr, wabaId, obi, solId, spbi, iom, aireStart, aireExc⟩

/-- The keyword-argument list of the constructor call inside
`from_update` (source lines 75–117), in source order.  The runtime
`TypedDict` constructors (`PartnerClientCertificationInfo`, `WabaInfo`,
`AuthInternationalRateEligibility`) perform no validation and simply
build dicts, so those arguments are embedded as `JVal.obj` values.  Note
the misspelled keyword `bussiness_verification_status` at source line 91,
copied verbatim from the source. -/
def mkKwargs (client : Client) (update : JVal) (f : ExtractedFields) :
    List (String × PyObj) :=
  [("_client", PyObj.clientVal client),
   ("raw", PyObj.val update),
   ("id", PyObj.val f.idv),
   ("timestamp", PyObj.dt f.ts),
   ("phone_number", PyObj.val f.phone),
   ("event", PyObj.val f.ev),
   ("waba_ban_state", PyObj.val f.wbs),
   ("waba_ban_date", PyObj.val f.wbd),
   ("violation_type", PyObj.val f.vt),
   ("lock_info_expiration", PyObj.dt f.lockExp),
   ("restriction_type", PyObj.val f.rt),
   ("restriction_info_expiration", PyObj.dt f.restrExp),
   ("bussiness_verification_status", PyObj.val f.bvs),
   ("partner_client_certification_info",
    PyObj.val (JVal.obj
      [("client_business_id", f.cbi), ("status", f.st),
       ("rejection_reasons", f.rr)])),
   ("waba_info",
    PyObj.val (JVal.obj
      [("waba_id", f.wabaId), ("owner_business_id", f.obi),
       ("solution_id", f.solId),
       ("solution_partner_business_ids", f.spbi),
       ("is_obo_to_shared_migrated", f.iom)])),
   ("auth_international_rate_eligibility",
    PyObj.val (JVal.obj
      [("start_time", f.aireStart), ("exception_countries", f.aireExc)]))]

/-- `AccountUpdate.from_update(client, update)` (source lines 71–118)
under local-timezone offset `off`: evaluate every keyword-argument
expression against the payload, then invoke the dataclass constructor
with the resulting keyword list. -/
def from_update (off : Int) (client : Client) (update : JVal) :
    Except PyError AccountUpdate :=
  extractFields off update >>= fun f => accountUpdateInit (mkKwargs client update f)

/-- Whether an embedded computation succeeded. -/
def exceptIsOk {α : Type} : Except PyError α → Bool
  | Except.ok _ => true
  | Except.error _ => false

/-- Whether every key path that `from_update` accesses is present and
well-shaped in the payload, i.e. whether its extraction phase reaches the
constructor call without a lookup failure. -/
def accessedPathsOk (off : Int) (update : JVal) : Bool :=
  exceptIsOk (extractFields off update)

/-- The accesses of the required key paths of the schema, in the order
`from_update` performs them: `entry[0]`, `changes[0]`, `value`, `id`,
`time` (which must be numeric for the timestamp conversion), `phone_number`,
`event`, `waba_info` and `waba_info.waba_id`. -/
def requiredAccess (update : JVal) : Except PyError Unit := do
  let data ← JVal.getItem update "entry" >>= (JVal.getIdx · 0)
  let value ← (JVal.getItem data "changes" >>= (JVal.getIdx · 0)) >>=
    (JVal.getItem · "value")
  let _ ← JVal.getItem data "id"
  let timev ← JVal.getItem data "time"
  let _ ← pyFromtimestamp 0 timev
  let _ ← JVal.getItem value "phone_number"
  let _ ← JVal.getItem value "event"
  let wi ← JVal.getItem value "waba_info"
  let _ ← JVal.getItem wi "waba_id"
  pure ()

/-- Whether every required key path of the schema is present and
well-shaped in the payload. -/
def requiredPathsOk (update : JVal) : Bool :=
  exceptIsOk (requiredAccess update)

/-- Whether an error is a lookup/shape error: a missing key or index, a
subscript on a non-subscriptable value, a non-numeric timestamp, or a
missing attribute — as opposed to the constructor-call `TypeError`s and
`FrozenInstanceError`. -/
def isLookupOrShape : PyError → Bool
  | PyError.keyError _ => true
  | PyError.indexError => true
  | PyError.typeErrorSubscript => true
  | PyError.typeErrorTimestamp => true
  | PyError.attributeError _ => true
  | _ => false

/-- The `__setattr__` generated for `AccountUpdate` by
`@dataclasses.dataclass(slots=True, frozen=True)` (source line 34), per
the `dataclasses` semantics: if the receiver's runtime type is exactly
the dataclass, or the attribute name is a declared field,
`FrozenInstanceError` is raised; otherwise the assignment is delegated to
the base `__setattr__`, which under `slots=True` raises `AttributeError`
because no other slot exists.  No branch ever produces an updated
record. -/
def AccountUpdate.setAttr (typeIsExact : Bool) (name : String)
    (_v : PyObj) (_u : AccountUpdate) : Except PyError AccountUpdate :=
  if typeIsExact || accountUpdateFieldNames.contains name then
    Except.error PyError.frozenInstanceError
  else
    Except.error (PyError.attributeError name)

/-- `PartnerClientCertificationInfoStatus` (source lines 188–198). -/
inductive PartnerClientCertificationInfoStatus where
  | PENDING
  | APPROVED
  | FAILED
  | REVOKED
  | UNKNOWN
deriving DecidableEq

/-- The string value of each `PartnerClientCertificationInfoStatus`
member (source lines 188–192). -/
def PartnerClientCertificationInfoStatus.value :
    PartnerClientCertificationInfoStatus → String
  | .PENDING => "PENDING"
  | .APPROVED => "APPROVED"
  | .FAILED => "FAILED"
  | .REVOKED => "REVOKED"
  | .UNKNOWN => "UNKNOWN"

/-- The declared member values of
`PartnerClientCertificationInfoStatus`. -/
def certStatusValues : List String :=
  ["PENDING", "APPROVED", "FAILED", "REVOKED", "UNKNOWN"]

/-- Calling the `PartnerClientCertificationInfoStatus` enumeration on a
string, per Python `Enum` call semantics: look the string up among the
declared member values; on a miss, the class's `_missing_` (source lines
194–198) returns `cls.UNKNOWN`.  This call never raises. -/
def PartnerClientCertificationInfoStatus.decode (s : String) :
    PartnerClientCertificationInfoStatus :=
  if s = "PENDING" then .PENDING
  else if s = "APPROVED" then .APPROVED
  else if s = "FAILED" then .FAILED
  else if s = "REVOKED" then .REVOKED
  else if s = "UNKNOWN" then .UNKNOWN
  else .UNKNOWN

/-- `PartnerClientCertificationInfoRejectionReasons` (source lines
214–225). -/
inductive PartnerClientCertificationInfoRejectionReasons where
  | LEGAL_NAME_NOT_MATCHING
  | WEBSITE_NOT_MATCHING
  | NONE
  | BUSINESS_NOT_ELIGIBLE
  | LEGAL_NAME_NOT_FOUND_IN_DOCUMENTS
  | ADDRESS_NOT_MATCHING
  | UNKNOWN
deriving DecidableEq

/-- The string value of each
`PartnerClientCertificationInfoRejectionReasons` member (source lines
214–220). -/
def PartnerClientCertificationInfoRejectionReasons.value :
    PartnerClientCertificationInfoRejectionReasons → String
  | .LEGAL_NAME_NOT_MATCHING => "LEGAL NAME NOT MATCHING"
  | .WEBSITE_NOT_MATCHING => "WEBSITE NOT MATCHING"
  | .NONE => "NONE"
  | .BUSINESS_NOT_ELIGIBLE => "BUSINESS NOT ELIGIBLE"
  | .LEGAL_NAME_NOT_FOUND_IN_DOCUMENTS => "LEGAL NAME NOT FOUND IN DOCUMENTS"
  | .ADDRESS_NOT_MATCHING => "ADDRESS NOT MATCHING"
  | .UNKNOWN => "UNKNOWN"

/-- The declared member values of
`PartnerClientCertificationInfoRejectionReasons`. -/
def rejectionReasonValues : List String :=
  ["LEGAL NAME NOT MATCHING", "WEBSITE NOT MATCHING", "NONE",
   "BUSINESS NOT ELIGIBLE", "LEGAL NAME NOT FOUND IN DOCUMENTS",
   "ADDRESS NOT MATCHING", "UNKNOWN"]

/-- Calling the `PartnerClientCertificationInfoRejectionReasons`
enumeration on a string, per Python `Enum` call semantics: look the
string up among the declared member values; on a miss, the class's
`_missing_` (the last lines of the source file) executes
`return cls.UNKNOWNc` — the attribute `UNKNOWNc` does not exist on the
class, so the call raises `AttributeError("UNKNOWNc")` instead of
returning the `UNKNOWN` member. -/
def PartnerClientCertificationInfoRejectionReasons.decode (s : String) :
    Except PyError PartnerClientCertificationInfoRejectionReasons :=
  if s = "LEGAL NAME NOT MATCHING" then Except.ok .LEGAL_NAME_NOT_MATCHING
  else if s = "WEBSITE NOT MATCHING" then Except.ok .WEBSITE_NOT_MATCHING
  else if s = "NONE" then Except.ok .NONE
  else if s = "BUSINESS NOT ELIGIBLE" then Except.ok .BUSINESS_NOT_ELIGIBLE
  else if s = "LEGAL NAME NOT FOUND IN DOCUMENTS" then
    Except.ok .LEGAL_NAME_NOT_FOUND_IN_DOCUMENTS
  else if s = "ADDRESS NOT MATCHING" then Except.ok .ADDRESS_NOT_MATCHING
  else if s = "UNKNOWN" then Except.ok .UNKNOWN
  else Except.error (PyError.attributeError "UNKNOWNc")

/-- A complete payload: every key path accessed by `from_update` is
present and well-shaped. -/
def fullPayload : JVal :=
  JVal.obj
    [("entry", JVal.arr
      [JVal.obj
        [("id", JVal.str "100"),
         ("time", JVal.int 1700000000),
         ("changes", JVal.arr
           [JVal.obj
             [("value", JVal.obj
               [("phone_number", JVal.str "15550001111"),
                ("event", JVal.str "DISABLED_UPDATE"),
                ("ban_info", JVal.obj
                  [("waba_ban_state", JVal.str "DISABLE"),
                   ("waba_ban_date", JVal.str "January 01, 2024")]),
                ("violation_info", JVal.obj
                  [("violation_type", JVal.str "ACCOUNT_VIOLATION")]),
                ("lock_info", JVal.obj
                  [("expiration", JVal.int 1700000100)]),
                ("restriction_info", JVal.obj
                  [("restriction_type",
                    JVal.str "RESTRICTED_ADD_PHONE_NUMBER_ACTION"),
                   ("expiration", JVal.int 1700000200)]),
                ("business_verification_status", JVal.str "verified"),
                ("partner_client_certification_info", JVal.obj
                  [("client_business_id", JVal.str "999"),
                   ("status", JVal.str "APPROVED"),
                   ("rejection_reasons", JVal.str "NONE")]),
                ("waba_info", JVal.obj
                  [("waba_id", JVal.str "200"),
                   ("owner_business_id", JVal.str "300"),
                   ("solution_id", JVal.null),
                   ("solution_partner_business_ids", JVal.null),
                   ("is_obo_to_shared_migrated", JVal.bool false)]),
                ("auth_international_rate_eligibility", JVal.obj
                  [("start_time", JVal.int 1700000300),
                   ("exception_countries", JVal.arr [])])])]])]])]

/-- A second complete, schema-conforming payload, with different field
values, used to exhibit the failure of the identity-preservation
property. -/
def validPayload : JVal :=
  JVal.obj
    [("entry", JVal.arr
      [JVal.obj
        [("id", JVal.str "101"),
         ("time", JVal.int 1711111111),
         ("changes", JVal.arr
           [JVal.obj
             [("value", JVal.obj
               [("phone_number", JVal.str "15550002222"),
                ("event", JVal.str "VERIFIED_ACCOUNT"),
                ("ban_info", JVal.obj
                  [("waba_ban_state", JVal.str "SCHEDULE_FOR_DISABLE"),
                   ("waba_ban_date", JVal.str "March 22, 2024")]),
                ("violation_info", JVal.obj
                  [("violation_type", JVal.str "POLICY_VIOLATION")]),
                ("lock_info", JVal.obj
                  [("expiration", JVal.int 1711111200)]),
                ("restriction_info", JVal.obj
                  [("restriction_type",
                    JVal.str "RESTRICTED_BIZ_INITIATED_MESSAGING"),
                   ("expiration", JVal.int 1711111300)]),
                ("business_verification_status", JVal.str "pending"),
                ("partner_client_certification_info", JVal.obj
                  [("client_business_id", JVal.str "777"),
                   ("status", JVal.str "PENDING"),
                   ("rejection_reasons", JVal.str "NONE")]),
                ("waba_info", JVal.obj
                  [("waba_id", JVal.str "201"),
                   ("owner_business_id", JVal.str "301"),
                   ("solution_id", JVal.str "sol-1"),
                   ("solution_partner_business_ids",
                    JVal.arr [JVal.str "401"]),
                   ("is_obo_to_shared_migrated", JVal.bool true)]),
                ("auth_international_rate_eligibility", JVal.obj
                  [("start_time", JVal.int 1711111400),
                   ("exception_countries", JVal.arr
                     [JVal.obj
                       [("country_code", JVal.str "IN"),
                        ("start_time", JVal.int 1711111500)]])])])]])]])]

/-- The minimal payload of the spec's scenario: required fields plus
`waba_info` only; every other optional sub-object is absent. -/
def minimalPayload : JVal :=
  JVal.obj
    [("entry", JVal.arr
      [JVal.obj
        [("id", JVal.str "100"),
         ("time", JVal.int 1700000000),
         ("changes", JVal.arr
           [JVal.obj
             [("value", JVal.obj
               [("phone_number", JVal.str "15550001111"),
                ("event", JVal.str "VERIFIED_ACCOUNT"),
                ("waba_info", JVal.obj
                  [("waba_id", JVal.str "200"),
                   ("owner_business_id", JVal.str "300"),
                   ("solution_id", JVal.null),
                   ("solution_partner_business_ids", JVal.null),
                   ("is_obo_to_shared_migrated", JVal.bool false)])])]])]])]

/-- The full payload with the certification status string replaced by one
that matches no declared enumeration member. -/
def weirdStatusPayload : JVal :=
  JVal.obj
    [("entry", JVal.arr
      [JVal.obj
        [("id", JVal.str "100"),
         ("time", JVal.int 1700000000),
         ("changes", JVal.arr
           [JVal.obj
             [("value", JVal.obj
               [("phone_number", JVal.str "15550001111"),
                ("event", JVal.str "DISABLED_UPDATE"),
                ("ban_info", JVal.obj
                  [("waba_ban_state", JVal.str "DISABLE"),
                   ("waba_ban_date", JVal.str "January 01, 2024")]),
                ("violation_info", JVal.obj
                  [("violation_type", JVal.str "ACCOUNT_VIOLATION")]),
                ("lock_info", JVal.obj
                  [("expiration", JVal.int 1700000100)]),
                ("restriction_info", JVal.obj
                  [("restriction_type",
                    JVal.str "RESTRICTED_ADD_PHONE_NUMBER_ACTION"),
                   ("expiration", JVal.int 1700000200)]),
                ("business_verification_status", JVal.str "verified"),
                ("partner_client_certification_info", JVal.obj
                  [("client_business_id", JVal.str "999"),
                   ("status", JVal.str "WEIRD_NEW_STATUS"),
                   ("rejection_reasons", JVal.str "NONE")]),
                ("waba_info", JVal.obj
                  [("waba_id", JVal.str "200"),
                   ("owner_business_id", JVal.str "300"),
                   ("solution_id", JVal.null),
                   ("solution_partner_business_ids", JVal.null),
                   ("is_obo_to_shared_migrated", JVal.bool false)]),
                ("auth_international_rate_eligibility", JVal.obj
                  [("start_time", JVal.int 1700000300),
                   ("exception_countries", JVal.arr [])])])]])]])]

/-- A payload whose `entry` list is empty. -/
def emptyEntryPayload : JVal :=
  JVal.obj [("entry", JVal.arr [])]

/-- A computation all of whose possible errors are lookup/shape errors. -/
def AlwaysShapeErr {α : Type} (x : Except PyError α) : Prop :=
  ∀ e, x = Except.error e → isLookupOrShape e = true

theorem alwaysShapeErr_bind {α β : Type} {x : Except PyError α}
    {f : α → Except PyError β} (hx : AlwaysShapeErr x)
    (hf : ∀ a, AlwaysShapeErr (f a)) : AlwaysShapeErr (x >>= f) := by
  intro e he
  cases x with
  | error e0 =>
    have h0 : e0 = e := by
      simpa [Bind.bind, Except.bind] using he
    exact h0 ▸ hx e0 rfl
  | ok a =>
    exact hf a e (by simpa [Bind.bind, Except.bind] using he)

theorem alwaysShapeErr_pure {α : Type} (a : α) :
    AlwaysShapeErr (pure a : Except PyError α) := by
  intro e he
  simp [pure, Except.pure] at he

theorem alwaysShapeErr_getItem (v : JVal) (k : String) :
    AlwaysShapeErr (JVal.getItem v k) := by
  intro e he
  unfold JVal.getItem at he
  split at he <;> try split at he
  all_goals simp at he
  all_goals subst he
  all_goals rfl

theorem alwaysShapeErr_getIdx (v : JVal) (i : Nat) :
    AlwaysShapeErr (JVal.getIdx v i) := by
  intro e he
  unfold JVal.getIdx at he
  split at he <;> try split at he
  all_goals simp at he
  all_goals subst he
  all_goals rfl

theorem alwaysShapeErr_getDefault (v : JVal) (k : String) :
    AlwaysShapeErr (JVal.getDefault v k) := by
  intro e he
  unfold JVal.getDefault at he
  split at he
  all_goals simp at he
  all_goals subst he
  all_goals rfl

theorem alwaysShapeErr_fromtimestamp (off : Int) (v : JVal) :
    AlwaysShapeErr (pyFromtimestamp off v) := by
  intro e he
  unfold pyFromtimestamp at he
  split at he
  all_goals simp at he
  all_goals subst he
  all_goals rfl

theorem extractFields_shape (off : Int) (u : JVal) :
    AlwaysShapeErr (extractFields off u) := by
  unfold extractFields
  repeat
    first
      | apply alwaysShapeErr_bind
      | apply alwaysShapeErr_getItem
      | apply alwaysShapeErr_getIdx
      | apply alwaysShapeErr_getDefault
      | apply alwaysShapeErr_fromtimestamp
      | apply alwaysShapeErr_pure
      | intro _

theorem ok_bind {α β : Type} (a : α) (f : α → Except PyError β) :
    (Except.ok a : Except PyError α) >>= f = f a := rfl

theorem bind_ok_inv {α β : Type} {x : Except PyError α}
    {f : α → Except PyError β} {b : β} (h : x >>= f = Except.ok b) :
    ∃ a, x = Except.ok a ∧ f a = Except.ok b := by
  cases x with
  | error e => simp [Bind.bind, Except.bind] at h
  | ok a => exact ⟨a, rfl, by simpa [Bind.bind, Except.bind] using h⟩

theorem mkKwargs_init_typo (c : Client) (u : JVal) (f : ExtractedFields) :
    accountUpdateInit (mkKwargs c u f) =
      Except.error (PyError.typeErrorUnexpectedKwarg
        "bussiness_verification_status") := rfl

theorem from_update_never_ok (off : Int) (c : Client) (u : JVal)
    (r : AccountUpdate) : from_update off c u ≠ Except.ok r := by
  intro h
  unfold from_update at h
  obtain ⟨f, _, hinit⟩ := bind_ok_inv h
  rw [mkKwargs_init_typo] at hinit
  exact Except.noConfusion hinit

theorem from_update_accessed_err (off : Int) (c : Client) (u : JVal)
    (h : accessedPathsOk off u = true) :
    from_update off c u =
      Except.error (PyError.typeErrorUnexpectedKwarg
        "bussiness_verification_status") := by
  unfold accessedPathsOk at h
  unfold from_update
  cases hx : extractFields off u with
  | error e => rw [hx] at h; simp [exceptIsOk] at h
  | ok f => exact mkKwargs_init_typo c u f

theorem extractFields_ok_required {off : Int} {u : JVal}
    {f : ExtractedFields} (h : extractFields off u = Except.ok f) :
    requiredPathsOk u = true := by
  unfold extractFields at h
  obtain ⟨data, hdata, h⟩ := bind_ok_inv h
  obtain ⟨a1, ha1, ha2⟩ := bind_ok_inv hdata
  obtain ⟨value, hvalue, h⟩ := bind_ok_inv h
  obtain ⟨b2, hb2, hb3⟩ := bind_ok_inv hvalue
  obtain ⟨b1, hb1, hb1b⟩ := bind_ok_inv hb2
  obtain ⟨idv, hid, h⟩ := bind_ok_inv h
  obtain ⟨timev, htime, h⟩ := bind_ok_inv h
  obtain ⟨ts, hts, h⟩ := bind_ok_inv h
  obtain ⟨phone, hphone, h⟩ := bind_ok_inv h
  obtain ⟨ev, hev, h⟩ := bind_ok_inv h
  obtain ⟨banInfo, hban, h⟩ := bind_ok_inv h
  obtain ⟨wbs, hwbs, h⟩ := bind_ok_inv h
  obtain ⟨wbd, hwbd, h⟩ := bind_ok_inv h
  obtain ⟨violInfo, hviol, h⟩ := bind_ok_inv h
  obtain ⟨vt, hvt, h⟩ := bind_ok_inv h
  obtain ⟨lockInfo, hlock, h⟩ := bind_ok_inv h
  obtain ⟨lockExpRaw, hler, h⟩ := bind_ok_inv h
  obtain ⟨lockExp, hle, h⟩ := bind_ok_inv h
  obtain ⟨restrInfo, hrestr, h⟩ := bind_ok_inv h
  obtain ⟨rt, hrt, h⟩ := bind_ok_inv h
  obtain ⟨restrExpRaw, hrer, h⟩ := bind_ok_inv h
  obtain ⟨restrExp, hre, h⟩ := bind_ok_inv h
  obtain ⟨bvs, hbvs, h⟩ := bind_ok_inv h
  obtain ⟨pcci, hpcci, h⟩ := bind_ok_inv h
  obtain ⟨cbi, hcbi, h⟩ := bind_ok_inv h
  obtain ⟨st, hst, h⟩ := bind_ok_inv h
  obtain ⟨rr, hrr, h⟩ := bind_ok_inv h
  obtain ⟨wi, hwi, h⟩ := bind_ok_inv h
  obtain ⟨wabaId, hwid, h⟩ := bind_ok_inv h
  have hts0 : ∃ d, pyFromtimestamp 0 timev = Except.ok d := by
    cases timev
    all_goals first
      | exact ⟨_, rfl⟩
      | simp [pyFromtimestamp] at hts
  obtain ⟨d0, hd0⟩ := hts0
  unfold requiredPathsOk requiredAccess
  simp only [ha1, ok_bind, ha2, hb1, hb1b, hb3, hid, htime, hd0, hphone,
    hev, hwi, hwid]
  rfl

theorem from_update_required_err (off : Int) (c : Client) (u : JVal)
    (h : requiredPathsOk u = false) :
    ∃ e, from_update off c u = Except.error e ∧
      isLookupOrShape e = true := by
  cases hx : extractFields off u with
  | error e =>
    refine ⟨e, ?_, extractFields_shape off u e hx⟩
    unfold from_update
    rw [hx]
    rfl
  | ok f =>
    rw [extractFields_ok_required hx] at h
    exact Bool.noConfusion h

/-- C1: for every input payload in which all the key paths accessed by
`AccountUpdate.from_update` are present, `from_update` raises a
`TypeError` instead of returning an `AccountUpdate`, because the
constructor is invoked with the keyword argument
`bussiness_verification_status`, which is not a declared field of the
`AccountUpdate` dataclass; hence `from_update` never successfully
constructs an `AccountUpdate` for any input. -/
theorem from_update_always_unexpected_keyword (off : Int) (c : Client)
    (u : JVal) :
    (accessedPathsOk off u = true →
      from_update off c u =
        Except.error (PyError.typeErrorUnexpectedKwarg
          "bussiness_verification_status")) ∧
    ∀ r, from_update off c u ≠ Except.ok r :=
  ⟨from_update_accessed_err off c u, from_update_never_ok off c u⟩

theorem from_update_always_unexpected_keyword_witness :
    accessedPathsOk 0 fullPayload = true ∧
    from_update 0 Client.mk fullPayload =
      Except.error (PyError.typeErrorUnexpectedKwarg
        "bussiness_verification_status") :=
  ⟨rfl,
   (from_update_always_unexpected_keyword 0 Client.mk fullPayload).1 rfl⟩

/-- C2: evaluating `from_update` at a complete, schema-conforming payload
(`validPayload`): instead of returning an `AccountUpdate` whose `id`,
`phone_number` and `event` equal the corresponding input strings, the
call raises `TypeError` (unexpected keyword argument
`bussiness_verification_status`), exhibiting the failure of the
identity-preservation claim on the code as given. -/
theorem from_update_valid_payload_raises :
    from_update 0 Client.mk validPayload =
      Except.error (PyError.typeErrorUnexpectedKwarg
        "bussiness_verification_status") := rfl

/-- C3: evaluating `from_update` at the spec's minimal payload (required
fields plus `waba_info` only): instead of returning an `AccountUpdate`
with the optional fields absent, the call fails with `KeyError` on
`ban_info`, the first unconditionally-indexed optional sub-object. -/
theorem from_update_minimal_payload_raises :
    from_update 0 Client.mk minimalPayload =
      Except.error (PyError.keyError "ban_info") := rfl

/-- C4: for every payload in which a required key path (`entry[0]`,
`changes[0]`, `value`, `id`, `time`, `phone_number`, `event`, `waba_info`
or `waba_info.waba_id`) is absent or malformed, `from_update` fails with
a lookup/shape error and does not return any (partially populated)
`AccountUpdate` value. -/
theorem from_update_required_path_failure (off : Int) (c : Client)
    (u : JVal) (h : requiredPathsOk u = false) :
    ∃ e, from_update off c u = Except.error e ∧
      isLookupOrShape e = true :=
  from_update_required_err off c u h

theorem from_update_required_path_failure_witness :
    requiredPathsOk emptyEntryPayload = false ∧
    ∃ e, from_update 0 Client.mk emptyEntryPayload = Except.error e ∧
      isLookupOrShape e = true :=
  ⟨rfl, from_update_required_path_failure 0 Client.mk emptyEntryPayload rfl⟩

/-- C5 counterexample: at a payload with every accessed key path present
and the certification status string `WEIRD_NEW_STATUS` (matching no
declared member), `from_update` raises a `TypeError` — an error IS
raised, and no result with the status resolved to `UNKNOWN` is ever
produced, contradicting the claim that the unknown status is resolved to
`CertificationStatus.UNKNOWN` in the result with no error raised. -/
theorem parse_weird_status_raises :
    accessedPathsOk 0 weirdStatusPayload = true ∧
    from_update 0 Client.mk weirdStatusPayload =
      Except.error (PyError.typeErrorUnexpectedKwarg
        "bussiness_verification_status") := ⟨rfl, rfl⟩

/-- C5 (amended): decoding a string through the certification-status
enumeration maps every string that matches no declared member to the
`UNKNOWN` member without error (e.g. `WEIRD_NEW_STATUS` decodes to
`UNKNOWN`); `from_update` itself, however, stores the raw status string
without invoking the enumeration and raises `TypeError` before returning
any result. -/
theorem certification_status_unknown_fallback (s : String)
    (h : s ∉ certStatusValues) :
    PartnerClientCertificationInfoStatus.decode s =
      PartnerClientCertificationInfoStatus.UNKNOWN := by
  simp [certStatusValues] at h
  obtain ⟨h1, h2, h3, h4, h5⟩ := h
  simp [PartnerClientCertificationInfoStatus.decode, h1, h2, h3, h4, h5]

theorem certification_status_unknown_fallback_witness :
    "WEIRD_NEW_STATUS" ∉ certStatusValues ∧
    PartnerClientCertificationInfoStatus.decode "WEIRD_NEW_STATUS" =
      PartnerClientCertificationInfoStatus.UNKNOWN :=
  ⟨by decide,
   certification_status_unknown_fallback "WEIRD_NEW_STATUS" (by decide)⟩

/-- C6: evaluating the rejection-reasons enumeration at a string matching
no declared member: the `_missing_` fallback executes
`return cls.UNKNOWNc`, an attribute that does not exist on the class, so
the decode raises `AttributeError("UNKNOWNc")` instead of resolving to
the `UNKNOWN` member. -/
theorem rejection_reason_unknown_raises :
    PartnerClientCertificationInfoRejectionReasons.decode
        "WEIRD_NEW_REASON" =
      Except.error (PyError.attributeError "UNKNOWNc") := rfl

/-- C7: for every declared member of the certification-status and
rejection-reasons enumerations, decoding that member's exact string value
yields exactly that member (and in particular not the `UNKNOWN`
fallback). -/
theorem enum_member_value_roundtrip :
    (∀ m : PartnerClientCertificationInfoStatus,
      PartnerClientCertificationInfoStatus.decode m.value = m) ∧
    (∀ m : PartnerClientCertificationInfoRejectionReasons,
      PartnerClientCertificationInfoRejectionReasons.decode m.value =
        Except.ok m) :=
  ⟨fun m => by cases m <;> rfl, fun m => by cases m <;> rfl⟩

/-- C8: for every integer epoch-seconds input `t`, the datetime value
derived by the timestamp conversion that `from_update` applies to the
`time`, `lock_info.expiration` and `restriction_info.expiration` fields,
when converted back to epoch seconds under the same local-timezone
offset, equals `t`. -/
theorem fromtimestamp_roundtrip (off t : Int) :
    (pyFromtimestamp off (JVal.int t)).map (PyDatetime.toTimestamp off) =
      Except.ok t := by
  simp [pyFromtimestamp, Except.map, PyDatetime.toTimestamp]

/-- C9: `AccountUpdate` is immutable once constructed: every attribute
assignment on an instance fails (with `FrozenInstanceError` when the
receiver is a direct instance or the name is a declared field, and with
the slots `AttributeError` otherwise) and never yields an updated
record; construction itself is the single total constructor invoked once
by `from_update`, with no partial construction. -/
theorem account_update_frozen_no_mutation (b : Bool) (n : String)
    (v : PyObj) (u : AccountUpdate) (r : AccountUpdate) :
    AccountUpdate.setAttr b n v u ≠ Except.ok r := by
  unfold AccountUpdate.setAttr
  split <;> exact fun h => Except.noConfusion h
